import Mathlib

/-!
Verification of the smoke-rs Task/Stream execution core against its
natural-language specification.

The development shallowly embeds the Rust source under `src/src/async/`:

* `src/src/async/task.rs` — `Task<T>`, `TaskSender<T>`, `Task::wait`,
  `Task::all`, `Task::async`;
* `src/src/async/stream.rs` — `Stream<T>`, `Stream::read`,
  `Stream::read_bounded`, `Stream::filter`, `Stream::map`, `Stream::range`;
* `src/src/async/scheduler.rs` — `ThreadJoinHandle::join`,
  `ThreadPoolJoinHandle::join`;
* `src/src/async/scheduling.rs` — `SyncScheduler::run`, `WaitHandle::wait`;
* `src/src/async/threadpool.rs` — `ThreadPool::spawn` / `ThreadPool::process`.

Rust machine behaviour is embedded as follows: a closure's interaction with
the one-shot channel it is handed becomes an explicit description of what it
sent and how it returned; panics become an explicit `panicked` outcome;
`std::sync::mpsc` channels become FIFO queues with a capacity bound; the
thread pool becomes a small-step transition system whose atomic steps are
exactly the lock-protected critical sections of the Rust code.
-/

/-- Model of `std::sync::mpsc::RecvError`: returned by `recv()` when every
sender has been dropped without delivering a value. -/
inductive RecvErrorM where
  | recvError
deriving DecidableEq, Repr

/-- Model of the opaque `Box<Any + Send>` payload carried by a panicked
thread's `join` result. -/
inductive PanicPayload where
  | payload
deriving DecidableEq, Repr

/-- The observable behaviour of a `Task<T>` closure
`FnOnce(TaskSender<T>) -> Result<(), SendError<T>>` when invoked with a fresh
sender whose receiver stays alive (as in `Task::wait`,
`src/src/async/task.rs` lines 170–177): the closure either runs to completion
— having sent at most one value through the single-use `TaskSender` (line
88–90) and returning `Ok` or `Err` — or it panics, having possibly sent
first. -/
inductive ClosureEffect (T : Type) where
  /-- The closure returned normally: `sent` is the value (if any) it pushed
  through the `TaskSender`, `ok` tells whether it returned `Ok(())`. -/
  | ret (sent : Option T) (ok : Bool)
  /-- The closure panicked, having possibly sent `sent` first. -/
  | panic (sent : Option T)
deriving DecidableEq, Repr

/-- The observable outcome of driving a task with `Task::wait`. -/
inductive TaskOutcome (T : Type) where
  /-- `wait` returned `Ok(v)`. -/
  | value (v : T)
  /-- `wait` returned `Err(RecvError)`. -/
  | recvErr
  /-- `wait` itself panicked (either the closure's panic propagated, or
  `wait` hit its own `panic!("task failed to execute.")`). -/
  | panicked
deriving DecidableEq, Repr

namespace Task

/-- Embedding of `Task::wait` (`src/src/async/task.rs` lines 170–177):

```rust
pub fn wait(self) -> Result<T, RecvError> {
    let (sender, receiver) = sync_channel(1);
    let sender = TaskSender::new(sender);
    match self.func.call(sender) {
        Err(_) => panic!("task failed to execute."),
        Ok(_)  => receiver.recv()
    }
}
```

A closure panic propagates through `wait`; a closure returning `Err` hits
the explicit `panic!`; a closure returning `Ok` leads to `receiver.recv()`
on the capacity-1 channel, which yields the buffered value if one was sent
and `Err(RecvError)` otherwise (all senders having been dropped). -/
def wait {T : Type} : ClosureEffect T → TaskOutcome T
  | .panic _ => .panicked
  | .ret _ false => .panicked
  | .ret (some v) true => .value v
  | .ret none true => .recvErr

end Task

namespace Task

/-- Embedding of the per-task path used inside `Task::all`
(`src/src/async/task.rs` lines 149–164): each task is started with
`task.async(|result| result)` — the scheduler runs `self.wait()` on a worker
thread and posts its `Result<T, RecvError>` into the handle's one-shot
channel (`Task::async`, lines 186–191) — and the handle is then waited on.
`handle.wait()` (`src/src/async/handle.rs`) is `receiver.recv()`:

* if the task's closure panicked, or returned `Err` (making the inner
  `wait` hit its `panic!`), the worker thread panics before posting, the
  handle's sender is dropped, and `handle.wait()` returns `Err(RecvError)`
  — modelled as `none`;
* otherwise the worker posts `self.wait()`'s result, so `handle.wait()`
  returns `Ok(Ok v)` when the closure sent `v`, and `Ok(Err RecvError)`
  when it returned `Ok` without sending. -/
def handleResult {T : Type} (c : ClosureEffect T) :
    Option (Except RecvErrorM T) :=
  match Task.wait c with
  | .panicked => none
  | .value v => some (.ok v)
  | .recvErr => some (.error .recvError)

/-- Embedding of the collection loop of `Task::all` (`src/src/async/task.rs`
lines 151–157):

```rust
tasks.into_iter()
     .map(|task| task.async(|result| result))
     .collect::<Vec<_>>()
     .into_iter()
     .map(|handle| handle.wait().unwrap())
     .collect::<Result<Vec<_>, RecvError>>()
```

Handles are waited in input order. At each position, `handle.wait()`
returning `Err(RecvError)` makes `.unwrap()` panic (modelled as `none`);
`collect::<Result<..>>` short-circuits at the first `Err` item. The result
is `some` of the values in input order exactly when every task cleanly
delivered a value. -/
def allCollect {T : Type} : List (ClosureEffect T) → Option (List T)
  | [] => some []
  | c :: cs =>
    match Task.handleResult c with
    | none => none
    | some (.error _) => none
    | some (.ok v) => (Task.allCollect cs).map (fun vs => v :: vs)

/-- Embedding of the closure of the Task returned by `Task::all`
(`src/src/async/task.rs` lines 149–164): if the collection loop produced a
vector it is sent through the composite task's sender; an `Err` from the
collection hits `panic!(error)`, and a panicking `.unwrap()` propagates —
either way the composite closure panics without sending. -/
def allEffect {T : Type} (cs : List (ClosureEffect T)) :
    ClosureEffect (List T) :=
  match Task.allCollect cs with
  | some vs => .ret (some vs) true
  | none => .panic none

end Task

/-- State of the `std::sync::mpsc::sync_channel` that `Stream::read` /
`Stream::read_bounded` (`src/src/async/stream.rs` lines 112–116 and
127–131) create between the producer thread driving the stream's closure
and the `Receiver` handed back to the caller: the values the closure has
yet to send (in emission order), the FIFO buffer currently in flight, and
the values the consumer has received so far. -/
structure ChanState (T : Type) where
  toSend : List T
  buf : List T
  received : List T
deriving DecidableEq, Repr

/-- One atomic step of the producer/consumer system around a
`sync_channel(bound)`. A `send` completes only while the buffer holds
fewer than `max bound 1` items — `sync_channel(n)` buffers up to `n` items
for `n > 0`, and the rendezvous channel `sync_channel(0)` has exactly one
value in flight during a hand-off. A `recv` takes the oldest buffered
item. The interleaving of the two is unconstrained otherwise. -/
inductive chanStep (bound : Nat) {T : Type} : ChanState T → ChanState T → Prop
  | send (x : T) (rest buf rcv : List T) (h : buf.length < max bound 1) :
      chanStep bound ⟨x :: rest, buf, rcv⟩ ⟨rest, buf ++ [x], rcv⟩
  | recv (ts : List T) (x : T) (rest rcv : List T) :
      chanStep bound ⟨ts, x :: rest, rcv⟩ ⟨ts, rest, rcv ++ [x]⟩

namespace Stream

/-- Initial channel state when `Stream::read` / `Stream::read_bounded`
starts driving a stream whose closure sends `emits` (in that order): the
producer thread has everything still to send, nothing is buffered,
nothing has been received. -/
def readInit {T : Type} (emits : List T) : ChanState T :=
  ⟨emits, [], []⟩

end Stream

/-- Observable run of a `Stream<T>` driving closure
`FnOnce(SyncSender<T>) -> Result<(), SendError<T>>` while its receiver is
being read to completion: the list of values it sent, in order, and whether
it panicked instead of returning. (A panic on the producer thread is
isolated by `thread::spawn`; the items already sent stay observable.) -/
structure StreamRun (T : Type) where
  sent : List T
  panicked : Bool
deriving DecidableEq, Repr

namespace Stream

/-- Embedding of the closure built by `Stream::output`
(`src/src/async/stream.rs` lines 75–78) from a body that sends `xs` one by
one and returns the last send's result: it emits `xs` and returns normally
— in particular it may legitimately send zero values. -/
def outputRun {T : Type} (xs : List T) : StreamRun T :=
  ⟨xs, false⟩

/-- Embedding of the driving closure built by `Stream::filter`
(`src/src/async/stream.rs` lines 184–192):

```rust
Stream::output(move |sender|
  self.read().into_iter()
             .filter(|n| func(n))
             .map(|n| sender.send(n))
             .last()
             .unwrap())
```

It re-emits the items of the upstream run that satisfy `f`, in order; when
no item passes, the iterator is empty, `.last()` is `None`, and `.unwrap()`
panics. The upstream runs on its own thread, so the filtered items depend
only on what the upstream actually sent. -/
def filterRun {T : Type} (up : StreamRun T) (f : T → Bool) : StreamRun T :=
  let ys := up.sent.filter f
  ⟨ys, ys.isEmpty⟩

/-- Embedding of the driving closure built by `Stream::map`
(`src/src/async/stream.rs` lines 206–214): same
`.map(|n| sender.send(func(n))).last().unwrap()` shape, so it emits `f`
applied to every upstream item, in order, and panics exactly when the
upstream emitted nothing. -/
def mapRun {T U : Type} (up : StreamRun T) (f : T → U) : StreamRun U :=
  let ys := up.sent.map f
  ⟨ys, ys.isEmpty⟩

/-- The `i32` values emitted by `Stream::range(start, end)`
(`src/src/async/stream.rs` lines 248–253): `start, start+1, ..., end-1`. -/
def rangeList (start stop : Int) : List Int :=
  (List.range (stop - start).toNat).map (fun i => start + i)

/-- Embedding of the driving closure built by `Stream::range`: it emits
`(start..end)` through the same `.map(send).last().unwrap()` pipeline, so
an empty range makes `.last()` return `None` and `.unwrap()` panic. -/
def rangeRun (start stop : Int) : StreamRun Int :=
  let ys := Stream.rangeList start stop
  ⟨ys, ys.isEmpty⟩

/-- Collecting every item from the receiver returned by reading a stream
run to completion: by the channel-ordering invariant (see
`stream_read_preserves_send_order`) the consumer obtains exactly the sent
list. -/
def readAll {T : Type} (r : StreamRun T) : List T :=
  r.sent

end Stream

/-- Outcome of the closure handed to a scheduler backend
(`src/src/async/scheduler.rs`): it either runs to completion with a value
or panics partway. -/
inductive WorkerOutcome (T : Type) where
  | completes (v : T)
  | panics
deriving DecidableEq, Repr

/-- Embedding of `ThreadJoinHandle::join` (`src/src/async/scheduler.rs`
lines 51–57): it delegates to `std::thread::JoinHandle::join`, which
returns `Ok(v)` for a completed closure and `Err(payload)` for a panicked
one — it always terminates. -/
def threadJoin {T : Type} : WorkerOutcome T → Except PanicPayload T
  | .completes v => .ok v
  | .panics => .error .payload

/-- Contents of the condition-variable-guarded result slot
(`Arc<(Mutex<Option<T>>, Condvar)>`) after the pool worker running the
closure has finished (`ThreadPoolScheduler::run`, `src/src/async/scheduler.rs`
lines 154–173): a completed closure stores `Some(result)` and notifies; a
panicking closure unwinds before the store, leaving the slot `None`
forever — the code's own comment warns that such panics cannot be
caught. -/
def slotAfter {T : Type} : WorkerOutcome T → Option T
  | .completes v => some v
  | .panics => none

/-- Embedding of the waiting loop of `ThreadPoolJoinHandle::join`
(`src/src/async/scheduler.rs` lines 75–85):

```rust
let mut value = lock.lock().unwrap();
while value.is_none() {
    value = cvar.wait(value).unwrap();
}
```

Once the worker has finished, no writer remains, so the slot is constant;
each (possibly spurious) condition-variable wakeup re-checks the same
slot. `poolJoinLoop slot n` is the value `join` extracts if the loop exits
within `n` wakeups, and `none` if it is still waiting. -/
def poolJoinLoop {T : Type} (slot : Option T) : Nat → Option T
  | 0 => none
  | n + 1 =>
    match slot with
    | some v => some v
    | none => poolJoinLoop slot n

/-- The condition-variable wait loop of `ThreadPoolJoinHandle::join` exits
after some finite number of wakeups. -/
def PoolJoinTerminates {T : Type} (slot : Option T) : Prop :=
  ∃ n, (poolJoinLoop slot n).isSome

namespace SyncScheduler

/-- Embedding of `SyncScheduler::run` (`src/src/async/scheduling.rs` lines
103–114):

```rust
fn run<T>(&self, task: Task<T>) -> WaitHandle<T> {
    let (sender, receiver) = sync_channel(1);
    let handle = WaitHandle::new(receiver);
    match task.func.call(TaskSender::new(sender)) {
      Err(error) => panic!(...),
      Ok (_)     => { }
    };
    handle
}
```

The task's closure runs inline on the calling thread, to completion,
before `run` returns. A closure panic propagates to the caller and an
`Err` return hits the explicit `panic!` (both modelled as `none`);
otherwise `run` returns the handle, whose capacity-1 channel already
buffers whatever the closure sent (`some sent`). -/
def run {T : Type} : ClosureEffect T → Option (Option T)
  | .panic _ => none
  | .ret _ false => none
  | .ret sent true => some sent

end SyncScheduler

namespace WaitHandle

/-- Embedding of `WaitHandle::wait` (`src/src/async/scheduling.rs` lines
53–73): `self.receiver.recv()` on the handle's one-shot channel — the
buffered value if one is present, `Err(RecvError)` otherwise. Under the
synchronous scheduler no other thread exists: the result is a pure
function of the buffer as it stood when `run` returned. -/
def wait {T : Type} : Option T → Except RecvErrorM T
  | some v => .ok v
  | none => .error .recvError

end WaitHandle

/-- The shared data of the `ThreadPool` of `src/src/async/threadpool.rs`
(`ThreadPoolData`, lines 51–55): the FIFO queue of pending jobs (named by
ids), the count of active jobs, and the capacity bound. One `Mutex`
protects all three, but — crucially — each of `spawn`'s push, `process`'s
dequeue check, `increment` and `decrement` takes and releases the lock
separately. -/
structure Pool where
  queue : List Nat
  active : Nat
  bound : Nat
deriving DecidableEq, Repr

/-- What a thread interacting with the pool does after its current atomic
(lock-protected) section returns from `process`: a submitter continues
with its remaining `spawn` calls (`ThreadPool::spawn` is called once per
job, lines 119–125), a worker's trailing `process` call ends the
thread. -/
inductive PoolCont where
  | spawnRest (js : List Nat)
  | finish
deriving DecidableEq, Repr

/-- Control state of one thread of the `ThreadPool` system, one state per
atomic section of `src/src/async/threadpool.rs`:

* `push j js` — inside `spawn(j)`, about to take the lock and
  `queue.push_back` (lines 121–124), then call `process`, then go on to
  spawn `js`;
* `proc k` — about to run `process`'s first critical section (lines
  95–102): pop the front job if the queue is non-empty and
  `active < bound`, releasing the lock before anything else happens;
* `incr j k` — holding popped job `j` outside the lock (line 104), about
  to call `increment()` (a second, separate lock acquisition, lines
  80–83) and `thread::spawn` the worker (line 107);
* `spawned j` — worker thread created, `func.call()` not yet entered;
* `running j` — worker executing job `j`'s closure (line 108);
* `decr` — job code finished, about to `decrement()` (lines 87–90) and
  then call `process` again (lines 109–110);
* `done` — thread finished. -/
inductive TState where
  | push (j : Nat) (js : List Nat)
  | proc (k : PoolCont)
  | incr (j : Nat) (k : PoolCont)
  | spawned (j : Nat)
  | running (j : Nat)
  | decr
  | done
deriving DecidableEq, Repr

/-- Where a thread goes when its `process` call returns. -/
def contState : PoolCont → TState
  | .spawnRest [] => .done
  | .spawnRest (j :: js) => .push j js
  | .finish => .done

/-- A configuration of the thread-pool system: the mutex-protected pool
data plus the control state of every thread. -/
structure PoolConfig where
  pool : Pool
  threads : List TState
deriving DecidableEq, Repr

/-- One atomic step of a single thread against the pool data, mirroring
the lock-protected sections of `src/src/async/threadpool.rs`. Returns the
new pool data, the thread's next state, and the worker thread `incr`
spawns, if any. `proc`'s branch is exactly the condition
`queue.len() > 0 && active < bound` of `process` (line 97). -/
def stepThread (p : Pool) : TState → Option (Pool × TState × Option TState)
  | .push j js =>
    some ({ p with queue := p.queue ++ [j] }, .proc (.spawnRest js), none)
  | .proc k =>
    match p.queue with
    | j :: rest =>
      if p.active < p.bound then
        some ({ p with queue := rest }, .incr j k, none)
      else
        some (p, contState k, none)
    | [] => some (p, contState k, none)
  | .incr j k =>
    some ({ p with active := p.active + 1 }, contState k, some (.spawned j))
  | .spawned j => some (p, .running j, none)
  | .running _ => some (p, .decr, none)
  | .decr =>
    some ({ p with active := p.active - 1 }, .proc .finish, none)
  | .done => none

/-- Execute the next atomic section of thread `i` of the configuration. A
newly spawned worker thread is appended to the thread list. -/
def stepAt (c : PoolConfig) (i : Nat) : Option PoolConfig :=
  match c.threads[i]? with
  | none => none
  | some t =>
    (stepThread c.pool t).map fun r =>
      { pool := r.1,
        threads := (c.threads.set i r.2.1) ++ r.2.2.toList }

/-- Run a whole interleaving: a list of thread indices, each naming the
thread whose next atomic section executes. -/
def runTrace (c : PoolConfig) : List Nat → Option PoolConfig
  | [] => some c
  | i :: is => (stepAt c i).bind (fun c2 => runTrace c2 is)

/-- Number of job closures executing concurrently in a configuration
(threads currently inside `func.call()`). -/
def countRunning (c : PoolConfig) : Nat :=
  (c.threads.filter (fun t =>
    match t with
    | .running _ => true
    | _ => false)).length

/-- Initial configuration for the specification's concrete scenario: a
fresh `ThreadPool::new(2)` and one submitter thread about to call
`spawn` for each of the five jobs `1, 2, 3, 4, 5` in order. -/
def poolInit : PoolConfig :=
  ⟨⟨[], 0, 2⟩, [.push 1 [2, 3, 4, 5]]⟩

/-- A legal interleaving of `poolInit` in which the submitter's `process`
call (inside `spawn(5)`) and worker 1's trailing `process` call both pass
the `active < bound` check at `active = 1` before either runs
`increment`: jobs 2, 3 and 4 then execute concurrently and the active
count reaches 3 on a pool of bound 2. Thread indices: 0 = submitter,
1/2/3/4 = workers for jobs 1/2/3/4 in order of creation. -/
def racingTrace : List Nat :=
  [0, 0, 0, 0, 0, 0, 0, 0, 0, 0, 0, 1, 2, 1, 1, 0, 1, 0, 1, 3, 4]

/-- C1 confirmed: `Task::wait` delivers exactly the value sent by the task's
closure — a closure that sends `v` and returns `Ok` makes `wait` return
`Ok(v)`, and a closure that returns `Ok` without sending makes `wait` return
`Err(RecvError)`, which is never a success value. -/
theorem task_wait_delivers_exactly_sent_value {T : Type} (v : T) :
    Task.wait (ClosureEffect.ret (some v) true) = TaskOutcome.value v ∧
    Task.wait (ClosureEffect.ret (none : Option T) true) = TaskOutcome.recvErr ∧
    ∀ w : T, (TaskOutcome.recvErr : TaskOutcome T) ≠ TaskOutcome.value w := by
  refine ⟨rfl, rfl, ?_⟩
  intro w h
  cases h

/-- C4 counterexample: the claim says a closure returning `Ok(())` without
sending makes `wait()` panic; in the code `wait` returns the ordinary error
value `Err(RecvError)` instead (the repository's own tests
`wait_no_result_match` / `wait_no_result_unwrap` only panic because they
call `.unwrap()` on that `Err`). -/
theorem task_wait_no_send_returns_err_not_panic :
    Task.wait (ClosureEffect.ret (none : Option Nat) true) = TaskOutcome.recvErr ∧
    (TaskOutcome.recvErr : TaskOutcome Nat) ≠ TaskOutcome.panicked := by
  exact ⟨rfl, by decide⟩

/-- C4 amended: a closure that returns `Ok(())` without sending makes
`wait()` return `Err(RecvError)` — a failure value, terminating rather than
hanging — while the explicit `panic!("task failed to execute.")` in `wait`
fires exactly when the closure returns `Err`. -/
theorem task_wait_no_send_amended {T : Type} (sent : Option T) :
    Task.wait (ClosureEffect.ret (none : Option T) true) = TaskOutcome.recvErr ∧
    Task.wait (ClosureEffect.ret sent false) = TaskOutcome.panicked := by
  refine ⟨rfl, ?_⟩
  cases sent <;> rfl

theorem Task.wait_value_iff {T : Type} {c : ClosureEffect T} {v : T} :
    Task.wait c = TaskOutcome.value v ↔ c = ClosureEffect.ret (some v) true := by
  cases c with
  | panic s => simp [Task.wait]
  | ret s ok => cases s <;> cases ok <;> simp [Task.wait]

theorem Task.handleResult_ok {T : Type} {c : ClosureEffect T} {v : T}
    (h : Task.handleResult c = some (Except.ok v)) :
    Task.wait c = TaskOutcome.value v := by
  unfold Task.handleResult at h
  cases hw : Task.wait c <;> rw [hw] at h <;> simp_all

theorem Task.allCollect_map_sends {T : Type} (rs : List T) :
    Task.allCollect (rs.map (fun r => ClosureEffect.ret (some r) true)) =
      some rs := by
  induction rs with
  | nil => rfl
  | cons r rs ih =>
    simp [Task.allCollect, Task.handleResult, Task.wait, ih]

theorem Task.allCollect_eq_some {T : Type} {cs : List (ClosureEffect T)}
    {vs : List T} (h : Task.allCollect cs = some vs) :
    ∀ c ∈ cs, ∃ v, c = ClosureEffect.ret (some v) true := by
  induction cs generalizing vs with
  | nil => intro c hc; cases hc
  | cons c cs ih =>
    intro d hd
    simp only [Task.allCollect] at h
    cases hr : Task.handleResult c with
    | none => rw [hr] at h; cases h
    | some e =>
      cases e with
      | error e => rw [hr] at h; cases h
      | ok v =>
        rw [hr] at h
        cases hcs : Task.allCollect cs with
        | none => rw [hcs] at h; cases h
        | some ws =>
          rcases List.mem_cons.mp hd with rfl | hd2
          · exact ⟨v, Task.wait_value_iff.mp (Task.handleResult_ok hr)⟩
          · exact ih hcs d hd2

/-- C2 confirmed: for a vector of tasks whose closures send `r0, ..., rn`,
the task returned by `Task::all` sends exactly `[r0, ..., rn]`, so waiting
on it yields `Ok` of the results index-aligned with the input order. Each
result travels through its own task's dedicated one-shot channel and the
handles are waited on in input order, so the output depends only on each
task's own behaviour, never on the order in which the racing tasks
complete. -/
theorem task_all_results_index_aligned {T : Type} (rs : List T) :
    Task.wait
      (Task.allEffect (rs.map (fun r => ClosureEffect.ret (some r) true))) =
      TaskOutcome.value rs := by
  simp [Task.allEffect, Task.allCollect_map_sends, Task.wait]

/-- C7 confirmed: if any task handed to `Task::all` fails to deliver a
value cleanly — its closure panics, returns `Err`, or returns `Ok` without
sending — the composite task's closure panics (fail-fast), so driving the
composite never yields a (partial) success vector, even when every other
task sent a valid value. -/
theorem task_all_fail_fast {T : Type} (cs : List (ClosureEffect T))
    (h : ∃ c ∈ cs, ∀ v : T, c ≠ ClosureEffect.ret (some v) true) :
    Task.wait (Task.allEffect cs) = TaskOutcome.panicked ∧
    ∀ vs : List T, Task.wait (Task.allEffect cs) ≠ TaskOutcome.value vs := by
  obtain ⟨c, hc, hne⟩ := h
  cases hall : Task.allCollect cs with
  | some vs =>
    obtain ⟨v, hv⟩ := Task.allCollect_eq_some hall c hc
    exact absurd hv (hne v)
  | none =>
    constructor
    · simp [Task.allEffect, hall, Task.wait]
    · intro vs hvs
      simp [Task.allEffect, hall, Task.wait] at hvs

/-- Witness for C7: a two-task vector whose first task panics and whose
second sends `1` makes the composite `all` task panic. -/
theorem task_all_fail_fast_witness :
    Task.wait
      (Task.allEffect
        [ClosureEffect.panic (none : Option Nat),
         ClosureEffect.ret (some 1) true]) = TaskOutcome.panicked :=
  (task_all_fail_fast
    [ClosureEffect.panic (none : Option Nat), ClosureEffect.ret (some 1) true]
    ⟨ClosureEffect.panic none, by simp, fun v hv => by cases hv⟩).1

theorem chanStep_invariant {T : Type} {bound : Nat} {s s2 : ChanState T}
    (h : Relation.ReflTransGen (chanStep bound) s s2) :
    s2.received ++ s2.buf ++ s2.toSend =
      s.received ++ s.buf ++ s.toSend := by
  induction h with
  | refl => rfl
  | tail _ hstep ih =>
    cases hstep with
    | send x rest buf rcv hlt => rw [← ih]; simp
    | recv ts x rest rcv => rw [← ih]; simp

/-- C3 confirmed: for every stream whose closure emits `xs` in order, every
read bound (0 = rendezvous, or any buffered bound), and every producer /
consumer interleaving the channel admits, once the producer has sent
everything and the buffer has drained, the consumer has received exactly
`xs` in emission order — the bound never changes the observed order. -/
theorem stream_read_preserves_send_order {T : Type} (bound : Nat)
    (xs : List T) (s : ChanState T)
    (hreach : Relation.ReflTransGen (chanStep bound) (Stream.readInit xs) s)
    (hdone : s.toSend = [] ∧ s.buf = []) :
    s.received = xs := by
  have h := chanStep_invariant hreach
  simp [Stream.readInit, hdone.1, hdone.2] at h
  exact h

/-- Witness for C3: a rendezvous-mode execution that alternates sends and
receives of `[1, 2, 3]` ends with the consumer holding `[1, 2, 3]`. -/
theorem stream_read_preserves_send_order_witness :
    ChanState.received (⟨[], [], [1, 2, 3]⟩ : ChanState Nat) = [1, 2, 3] := by
  have s1 : chanStep 0 (⟨[1, 2, 3], [], []⟩ : ChanState Nat) ⟨[2, 3], [1], []⟩ :=
    chanStep.send 1 [2, 3] [] [] (by decide)
  have s2 : chanStep 0 (⟨[2, 3], [1], []⟩ : ChanState Nat) ⟨[2, 3], [], [1]⟩ :=
    chanStep.recv [2, 3] 1 [] []
  have s3 : chanStep 0 (⟨[2, 3], [], [1]⟩ : ChanState Nat) ⟨[3], [2], [1]⟩ :=
    chanStep.send 2 [3] [] [1] (by decide)
  have s4 : chanStep 0 (⟨[3], [2], [1]⟩ : ChanState Nat) ⟨[3], [], [1, 2]⟩ :=
    chanStep.recv [3] 2 [] [1]
  have s5 : chanStep 0 (⟨[3], [], [1, 2]⟩ : ChanState Nat) ⟨[], [3], [1, 2]⟩ :=
    chanStep.send 3 [] [] [1, 2] (by decide)
  have s6 : chanStep 0 (⟨[], [3], [1, 2]⟩ : ChanState Nat) ⟨[], [], [1, 2, 3]⟩ :=
    chanStep.recv [] 3 [] [1, 2]
  exact stream_read_preserves_send_order 0 [1, 2, 3] ⟨[], [], [1, 2, 3]⟩
    (Relation.ReflTransGen.tail
      (Relation.ReflTransGen.tail
        (Relation.ReflTransGen.tail
          (Relation.ReflTransGen.tail
            (Relation.ReflTransGen.tail
              (Relation.ReflTransGen.tail Relation.ReflTransGen.refl s1)
              s2)
            s3)
          s4)
        s5)
      s6)
    ⟨rfl, rfl⟩

theorem poolJoinLoop_none {T : Type} (n : Nat) :
    poolJoinLoop (none : Option T) n = none := by
  induction n with
  | zero => rfl
  | succ n ih => simpa [poolJoinLoop] using ih

/-- C5 counterexample: the claim asserts that joining a panicked closure
terminates with a failure on the thread-pool backend too; in the code the
panicked pool worker never populates the condition-variable slot, so the
`while value.is_none()` loop in `ThreadPoolJoinHandle::join` never exits —
`join` blocks forever instead of returning. -/
theorem pool_join_never_returns_on_panic :
    ¬ PoolJoinTerminates (slotAfter (WorkerOutcome.panics : WorkerOutcome Nat)) := by
  rintro ⟨n, hn⟩
  simp [slotAfter, poolJoinLoop_none] at hn

/-- C5 amended: on the dedicated-thread backend, joining a panicked
closure terminates with the failure variant carrying the opaque panic
payload; on the thread-pool backend, `join` returns (with the value) only
when the worker completed and populated the slot — if the worker panicked
first, the slot stays empty and the condition-variable wait loop never
exits, for any number of wakeups. -/
theorem join_on_panicked_closure {T : Type} (v : T) :
    threadJoin (WorkerOutcome.panics : WorkerOutcome T) =
      Except.error PanicPayload.payload ∧
    (∀ n, poolJoinLoop (slotAfter (WorkerOutcome.panics : WorkerOutcome T)) n
      = none) ∧
    poolJoinLoop (slotAfter (WorkerOutcome.completes v)) 1 = some v := by
  refine ⟨rfl, fun n => ?_, rfl⟩
  simp [slotAfter, poolJoinLoop_none]

/-- C6 failing run: on a `ThreadPool::new(2)` given the five jobs
`1..5`, the interleaving `racingTrace` — legal under the pool's actual
locking, in which the submitter's `process` (inside `spawn(5)`) and worker
1's trailing `process` both pass the `active < bound` check before either
runs `increment` — reaches a configuration with three job closures
running concurrently and `active = 3`, violating the claimed bound-2
invariant. -/
theorem threadpool_bound_overrun_reachable :
    (runTrace poolInit racingTrace).map countRunning = some 3 ∧
    (runTrace poolInit racingTrace).map (fun c => c.pool.active) = some 3 ∧
    poolInit.pool.bound = 2 := by
  refine ⟨?_, ?_, rfl⟩ <;> rfl

/-- C8 confirmed: running a task whose closure sends `v` on the
synchronous scheduler executes the closure inline — `run` returns only
after the closure has completed, with the handle's channel already holding
`v` — and the subsequent `wait()` returns `Ok(v)` purely from that
pre-resolved buffer, with no other thread involved. -/
theorem sync_scheduler_runs_inline_pre_resolved {T : Type} (v : T) :
    SyncScheduler.run (ClosureEffect.ret (some v) true) = some (some v) ∧
    WaitHandle.wait (some v) = Except.ok v :=
  ⟨rfl, rfl⟩

/-- C9 confirmed: the stream emitting `[1, 2, 3, 4]`, filtered by
`n % 2 == 0` and mapped by `n * 2`, read to completion, yields exactly
`[4, 8]` (and its driving closure completes without panicking). -/
theorem stream_filter_map_concrete :
    Stream.readAll
      (Stream.mapRun
        (Stream.filterRun (Stream.outputRun ([1, 2, 3, 4] : List Int))
          (fun n => n % 2 == 0))
        (fun n => n * 2)) = [4, 8] ∧
    (Stream.mapRun
      (Stream.filterRun (Stream.outputRun ([1, 2, 3, 4] : List Int))
        (fun n => n % 2 == 0))
      (fun n => n * 2)).panicked = false := by
  refine ⟨?_, ?_⟩ <;> rfl

/-- C10 confirmed: when no upstream item satisfies the predicate, the
driving closure built by `Stream::filter` panics (the `.last()` of the
empty send iterator is `None` and `.unwrap()` panics) instead of returning
`Ok(())`; likewise `Stream::map` over a stream that emitted nothing and
`Stream::range` over an empty range — even though a stream closure built
directly by `Stream::output` is free to send zero values and return
normally. -/
theorem stream_combinators_panic_on_empty {T U : Type}
    (up up2 : StreamRun T) (f : T → Bool) (g : T → U) (a b : Int)
    (hf : up.sent.filter f = []) (h2 : up2.sent = []) (hab : b ≤ a) :
    (Stream.filterRun up f).panicked = true ∧
    (Stream.mapRun up2 g).panicked = true ∧
    (Stream.rangeRun a b).panicked = true ∧
    (Stream.outputRun ([] : List T)).panicked = false := by
  refine ⟨?_, ?_, ?_, rfl⟩
  · simp [Stream.filterRun, hf]
  · simp [Stream.mapRun, h2]
  · have hz : (b - a).toNat = 0 := Int.toNat_of_nonpos (by omega)
    simp [Stream.rangeRun, Stream.rangeList, hz]

/-- Witness for C10: filtering `[1, 3]` for even numbers, mapping over an
empty stream, and `range(5, 5)` all panic, while an `output` stream that
sends nothing completes normally. -/
theorem stream_combinators_panic_on_empty_witness :
    (Stream.filterRun (Stream.outputRun ([1, 3] : List Int))
      (fun n => n % 2 == 0)).panicked = true ∧
    (Stream.mapRun (Stream.outputRun ([] : List Int))
      (fun n => n)).panicked = true ∧
    (Stream.rangeRun 5 5).panicked = true ∧
    (Stream.outputRun ([] : List Int)).panicked = false :=
  stream_combinators_panic_on_empty (Stream.outputRun [1, 3])
    (Stream.outputRun []) (fun n => n % 2 == 0) (fun n => n) 5 5
    (by decide) rfl (by decide)
